import Mathlib

/-!
Verification development for a movie cataloguing web application
(Express/Sequelize REST backend with a React client).

The definitions below are a shallow embedding of the code paths relevant to
the watchlist, review-listing and movie-service behaviour:

  - backend/services/movieService.js   (getOrCreateMovieByImdbId, updateMovieFromOmdb)
  - api/watchlist.js                   (GET /, POST /add, PUT /:itemId,
                                        DELETE /:itemId, GET /check/:imdbId)
  - the reviews router                 (GET /movies/:imdbId, GET /)
  - src/contexts/WatchlistContext.tsx  (client-side reducer mirror)

Database tables become lists of records threaded through handler functions,
HTTP responses become status codes, and JavaScript truthiness fallbacks
(x || y) become explicit Option-based helpers.  Timestamps and the
created_at ordering of listings are not modelled: no verified property
mentions them.  JavaScript numbers are modelled as Int / Nat / Rat; all the
values occurring in the modelled paths are small integers, where IEEE
doubles are exact.
-/

namespace MovieApp

/-- Models the JavaScript fallback `a || b` for an optional string `a`:
both an absent value and the empty string are falsy. -/
def jsOrStr (o : Option String) (d : String) : String :=
  match o with
  | some s => if s = "" then d else s
  | none => d

/-- Models the JavaScript fallback `a || b` where `a` is the result of a
numeric parse (none models both an absent field and NaN); `0` is falsy. -/
def jsOrInt (o : Option Int) (d : Int) : Int :=
  match o with
  | some v => if v = 0 then d else v
  | none => d

/-- Rational version of `jsOrInt`, for `parseFloat` results. -/
def jsOrRat (o : Option ℚ) (d : ℚ) : ℚ :=
  match o with
  | some v => if v = 0 then d else v
  | none => d

/-- Models `a || b` where the current database column `b` is itself
nullable. -/
def jsOrOpt (o : Option String) (d : Option String) : Option String :=
  match o with
  | some s => if s = "" then d else some s
  | none => d

/-- A row of the Movie table.  Columns that the modelled code can leave
NULL are Options; the columns always set at creation are plain values. -/
structure Movie where
  id : Nat
  imdb_id : String
  title : String
  year : Int
  poster : String
  imdb_rating : ℚ
  average_rating : ℚ
  total_reviews : Nat
  rated : Option String := none
  released : Option String := none
  runtime : Option String := none
  genre : Option String := none
  director : Option String := none
  writer : Option String := none
  actors : Option String := none
  plot : Option String := none
  language : Option String := none
  country : Option String := none
  awards : Option String := none
  imdb_votes : Option String := none
  type : Option String := none
  dvd : Option String := none
  box_office : Option String := none
  production : Option String := none
  website : Option String := none
  deriving DecidableEq, Repr

/-- The Movie table plus the auto-increment counter for primary keys. -/
structure MovieDb where
  movies : List Movie
  nextId : Nat
  deriving DecidableEq, Repr

/-- The placeholder row created by `getOrCreateMovieByImdbId` when no movie
with the requested IMDb id exists: synthetic title `Movie <id>`, the current
year, a placeholder poster, and zeroed rating aggregates. -/
def placeholderMovie (id : Nat) (imdbId : String) (today : Int) : Movie :=
  { id := id
    imdb_id := imdbId
    title := "Movie " ++ imdbId
    year := today
    poster := "/placeholder-movie.jpg"
    imdb_rating := 0
    average_rating := 0
    total_reviews := 0 }

/-- Embedding of `MovieService.getOrCreateMovieByImdbId` from
backend/services/movieService.js: look the movie up by IMDb id and return
it unchanged if present, otherwise insert a placeholder row.  `today`
models `new Date().getFullYear()`. -/
def getOrCreateMovieByImdbId (db : MovieDb) (imdbId : String) (today : Int) :
    Movie × MovieDb :=
  match db.movies.find? (fun m => m.imdb_id == imdbId) with
  | some m => (m, db)
  | none =>
      let m := placeholderMovie db.nextId imdbId today
      (m, { movies := db.movies ++ [m], nextId := db.nextId + 1 })

/-- The partial OMDb metadata object passed to `updateMovieFromOmdb`.
String fields are Options (none = field absent).  `Year` holds the result
of `parseInt(omdbData.Year)` and `imdbRating` the result of
`parseFloat(omdbData.imdbRating)`; none models both an absent field and a
NaN parse, which behave identically in the `||` fallbacks. -/
structure OmdbData where
  Title : Option String := none
  Year : Option Int := none
  Rated : Option String := none
  Released : Option String := none
  Runtime : Option String := none
  Genre : Option String := none
  Director : Option String := none
  Writer : Option String := none
  Actors : Option String := none
  Plot : Option String := none
  Language : Option String := none
  Country : Option String := none
  Awards : Option String := none
  Poster : Option String := none
  imdbRating : Option ℚ := none
  imdbVotes : Option String := none
  «Type» : Option String := none
  DVD : Option String := none
  BoxOffice : Option String := none
  Production : Option String := none
  Website : Option String := none
  deriving DecidableEq, Repr

/-- The field-by-field merge performed by `movie.update({...})` inside
`updateMovieFromOmdb`: every assignment in the source is
`omdbData.X || movie.x`, so a field absent from the metadata keeps the
current column value. -/
def applyOmdb (m : Movie) (d : OmdbData) : Movie :=
  { m with
    title := jsOrStr d.Title m.title
    year := jsOrInt d.Year m.year
    rated := jsOrOpt d.Rated m.rated
    released := jsOrOpt d.Released m.released
    runtime := jsOrOpt d.Runtime m.runtime
    genre := jsOrOpt d.Genre m.genre
    director := jsOrOpt d.Director m.director
    writer := jsOrOpt d.Writer m.writer
    actors := jsOrOpt d.Actors m.actors
    plot := jsOrOpt d.Plot m.plot
    language := jsOrOpt d.Language m.language
    country := jsOrOpt d.Country m.country
    awards := jsOrOpt d.Awards m.awards
    poster := jsOrStr d.Poster m.poster
    imdb_rating := jsOrRat d.imdbRating m.imdb_rating
    imdb_votes := jsOrOpt d.imdbVotes m.imdb_votes
    type := jsOrOpt d.«Type» m.type
    dvd := jsOrOpt d.DVD m.dvd
    box_office := jsOrOpt d.BoxOffice m.box_office
    production := jsOrOpt d.Production m.production
    website := jsOrOpt d.Website m.website }

/-- Embedding of `MovieService.updateMovieFromOmdb`: find the movie by
IMDb id (none models the thrown `Movie not found` error), merge the
supplied metadata field by field, and persist the merged row. -/
def updateMovieFromOmdb (db : MovieDb) (imdbId : String) (d : OmdbData) :
    Option (Movie × MovieDb) :=
  match db.movies.find? (fun m => m.imdb_id == imdbId) with
  | none => none
  | some m =>
      let m2 := applyOmdb m d
      some (m2, { db with movies := db.movies.map (fun x => if x.id == m.id then m2 else x) })

/-- A row of the Watchlist table (timestamps are not modelled). -/
structure WItem where
  id : Nat
  user_id : Nat
  movie_id : Nat
  status : String
  notes : Option String
  priority : Int
  deriving DecidableEq, Repr

/-- A row of the Review table; only the columns the modelled review-listing
endpoints consult (the movie foreign key for the per-movie count) are kept. -/
structure Review where
  id : Nat
  user_id : Nat
  movie_id : Nat
  deriving DecidableEq, Repr

/-- The server-side state touched by the modelled routes: the Movie table,
the Watchlist table with its id counter, and the Review table. -/
structure ServerState where
  movieDb : MovieDb
  watchlist : List WItem
  nextItemId : Nat
  reviews : List Review
  deriving DecidableEq, Repr

/-- The status enum accepted by the watchlist validators. -/
def statusValues : List String := ["want_to_watch", "watching", "watched"]

/-- Embedding of the anchored pattern `tt` followed by 7 or 8 digits used by
`body(imdb_id).matches(...)` in POST /add. -/
def isValidImdbId (s : String) : Bool :=
  let cs := s.data
  (cs.length == 9 || cs.length == 10) && cs.take 2 == ['t', 't']
    && (cs.drop 2).all Char.isDigit

/-- Optional-field check for `body(status).optional().isIn([...])`. -/
def validStatusOpt (o : Option String) : Bool :=
  match o with
  | some st => statusValues.contains st
  | none => true

/-- Optional-field check for `body(notes).optional().isLength(max 500)`. -/
def validNotesOpt (o : Option String) : Bool :=
  match o with
  | some n => decide (n.data.length ≤ 500)
  | none => true

/-- Optional-field check for `body(priority).optional().isInt(0 to 5)`. -/
def validPriorityOpt (o : Option Int) : Bool :=
  match o with
  | some p => decide (0 ≤ p ∧ p ≤ 5)
  | none => true

/-- Request body of POST /add. -/
structure AddBody where
  imdb_id : String
  status : Option String := none
  notes : Option String := none
  priority : Option Int := none
  deriving DecidableEq, Repr

/-- The validator chain of POST /add. -/
def validateAddBody (b : AddBody) : Bool :=
  isValidImdbId b.imdb_id && validStatusOpt b.status && validNotesOpt b.notes
    && validPriorityOpt b.priority

/-- Request body of PUT /:itemId.  The handler validates only status, notes
and priority, but then passes the whole parsed body to the ORM update, so
the body can also carry the other Watchlist columns. -/
structure UpdateBody where
  status : Option String := none
  notes : Option String := none
  priority : Option Int := none
  user_id : Option Nat := none
  movie_id : Option Nat := none
  deriving DecidableEq, Repr

/-- The validator chain of PUT /:itemId: only status, notes and priority
are checked. -/
def validateUpdateBody (b : UpdateBody) : Bool :=
  validStatusOpt b.status && validNotesOpt b.notes && validPriorityOpt b.priority

/-- Embedding of `watchlistItem.update(req.body)`: every Watchlist column
present in the body is overwritten, including user_id and movie_id. -/
def applyUpdate (it : WItem) (b : UpdateBody) : WItem :=
  { it with
    status := b.status.getD it.status
    notes := match b.notes with | some n => some n | none => it.notes
    priority := b.priority.getD it.priority
    user_id := b.user_id.getD it.user_id
    movie_id := b.movie_id.getD it.movie_id }

/-- Embedding of POST /add from api/watchlist.js: validate, resolve the
movie via the movie service, reject with 409 when a (user, movie) watchlist
row already exists, otherwise insert the new row. -/
def addHandler (s : ServerState) (userId : Nat) (b : AddBody) (today : Int) :
    Nat × ServerState :=
  if validateAddBody b then
    let r := getOrCreateMovieByImdbId s.movieDb b.imdb_id today
    let s1 : ServerState := { s with movieDb := r.2 }
    match s1.watchlist.find? (fun it => it.user_id == userId && it.movie_id == r.1.id) with
    | some _ => (409, s1)
    | none =>
        let item : WItem :=
          { id := s1.nextItemId
            user_id := userId
            movie_id := r.1.id
            status := b.status.getD "want_to_watch"
            notes := b.notes
            priority := b.priority.getD 0 }
        (201, { s1 with watchlist := s1.watchlist ++ [item], nextItemId := s1.nextItemId + 1 })
  else (400, s)

/-- Embedding of PUT /:itemId from api/watchlist.js: validate, then 404 when
the row is absent, 403 when the requester does not own it, otherwise apply
the whole-body merge to that row. -/
def updateHandler (s : ServerState) (userId : Nat) (itemId : Nat) (b : UpdateBody) :
    Nat × ServerState :=
  if validateUpdateBody b then
    match s.watchlist.find? (fun it => it.id == itemId) with
    | none => (404, s)
    | some it =>
        if it.user_id ≠ userId then (403, s)
        else
          (200, { s with
            watchlist := s.watchlist.map (fun x => if x.id == itemId then applyUpdate x b else x) })
  else (400, s)

/-- Embedding of DELETE /:itemId from api/watchlist.js: 404 when the row is
absent, 403 when the requester does not own it, otherwise destroy it. -/
def deleteHandler (s : ServerState) (userId : Nat) (itemId : Nat) :
    Nat × ServerState :=
  match s.watchlist.find? (fun it => it.id == itemId) with
  | none => (404, s)
  | some it =>
      if it.user_id ≠ userId then (403, s)
      else (200, { s with watchlist := s.watchlist.filter (fun x => !(x.id == itemId)) })

/-- Embedding of GET /check/:imdbId from api/watchlist.js: resolves the
movie through `getOrCreateMovieByImdbId` (creating a placeholder row when
absent) and then reports whether a watchlist row exists. -/
def checkHandler (s : ServerState) (userId : Nat) (imdbId : String) (today : Int) :
    Nat × Bool × ServerState :=
  let r := getOrCreateMovieByImdbId s.movieDb imdbId today
  let s1 : ServerState := { s with movieDb := r.2 }
  let found := (s1.watchlist.find? (fun it => it.user_id == userId && it.movie_id == r.1.id)).isSome
  (200, found, s1)

/-- The pagination envelope the listing endpoints return. -/
structure Pagination where
  current_page : Int
  total_pages : Int
  total_items : Nat
  limit : Int
  has_next : Bool
  has_prev : Bool
  deriving DecidableEq, Repr

/-- Executable model of `Math.ceil(a / b)` on integers (exact for the
magnitudes the endpoints handle); `jsCeil_eq_ceil` below proves it is the
rational ceiling whenever `b` is nonzero. -/
def jsCeil (a b : Int) : Int :=
  if 0 ≤ b then -(Int.fdiv (-a) b) else -(Int.fdiv a (-b))

/-- The pagination object built by every modelled listing endpoint:
`total_pages = Math.ceil(count / limit)`, `has_next = page < totalPages`,
`has_prev = page > 1`. -/
def mkPagination (count : Nat) (page limit : Int) : Pagination :=
  let totalPages := jsCeil count limit
  { current_page := page
    total_pages := totalPages
    total_items := count
    limit := limit
    has_next := decide (page < totalPages)
    has_prev := decide (1 < page) }

/-- The pagination contract as the specification words it:
`total_pages = ceil(total / limit)`, `has_next = page < ceil(total / limit)`
and `has_prev = page > 1`, with the ceiling taken over exact rationals. -/
def paginationSpec (pg : Pagination) : Prop :=
  pg.total_pages = ⌈(pg.total_items : ℚ) / (pg.limit : ℚ)⌉
    ∧ pg.has_next = decide (pg.current_page < ⌈(pg.total_items : ℚ) / (pg.limit : ℚ)⌉)
    ∧ pg.has_prev = decide (1 < pg.current_page)

/-- Query parameters of the listing endpoints (absent = not supplied; the
numeric fields model the parsed integer value). -/
structure ListQuery where
  page : Option Int := none
  limit : Option Int := none
  status : Option String := none
  deriving DecidableEq, Repr

/-- The validator chain of GET / in api/watchlist.js: page at least 1,
limit between 1 and 100, status in the enum; each is optional. -/
def validateWatchlistQuery (q : ListQuery) : Bool :=
  (match q.page with | some p => decide (1 ≤ p) | none => true)
    && (match q.limit with | some l => decide (1 ≤ l ∧ l ≤ 100) | none => true)
    && validStatusOpt q.status

/-- Embedding of GET / from api/watchlist.js, reduced to the data the
pagination claims concern: the validated status plus the returned
pagination envelope (none on a validation error). -/
def getWatchlistHandler (s : ServerState) (userId : Nat) (q : ListQuery) :
    Nat × Option Pagination :=
  if validateWatchlistQuery q then
    let page := q.page.getD 1
    let limit := q.limit.getD 20
    let count := (s.watchlist.filter (fun it =>
      it.user_id == userId
        && (match q.status with | some st => it.status == st | none => true))).length
    (200, some (mkPagination count page limit))
  else (400, none)

/-- The validator chain of the recent-reviews listing GET /: page at least
1, limit between 1 and 50. -/
def validateRecentReviewsQuery (q : ListQuery) : Bool :=
  (match q.page with | some p => decide (1 ≤ p) | none => true)
    && (match q.limit with | some l => decide (1 ≤ l ∧ l ≤ 50) | none => true)

/-- Embedding of the recent-reviews listing GET / from the reviews router. -/
def recentReviewsHandler (s : ServerState) (q : ListQuery) :
    Nat × Option Pagination :=
  if validateRecentReviewsQuery q then
    let page := q.page.getD 1
    let limit := q.limit.getD 10
    (200, some (mkPagination s.reviews.length page limit))
  else (400, none)

/-- Embedding of GET /movies/:imdbId from the reviews router.  There is no
validator chain: `page = parseInt(...) || 1` and `limit = parseInt(...) || 10`
accept any integer, and the movie is resolved through
`getOrCreateMovieByImdbId`, creating a placeholder row when absent. -/
def movieReviewsHandler (s : ServerState) (imdbId : String) (q : ListQuery) (today : Int) :
    Nat × Option Pagination × ServerState :=
  let page := jsOrInt q.page 1
  let limit := jsOrInt q.limit 10
  let r := getOrCreateMovieByImdbId s.movieDb imdbId today
  let s1 : ServerState := { s with movieDb := r.2 }
  let count := (s1.reviews.filter (fun rv => rv.movie_id == r.1.id)).length
  (200, some (mkPagination count page limit), s1)

/-- A watchlist item as the client context stores it (the nested movie
object is not modelled; no claim concerns it). -/
structure CItem where
  id : String
  status : String
  notes : Option String
  priority : Int
  deriving DecidableEq, Repr

/-- The two copies of the client watchlist: the in-memory reducer items and
the list persisted under the localStorage key of the current user. -/
structure ClientState where
  items : List CItem
  store : List CItem
  deriving DecidableEq, Repr

/-- The partial updates object of `updateWatchlistItem`. -/
structure CUpdates where
  status : Option String := none
  notes : Option String := none
  priority : Option Int := none
  deriving DecidableEq, Repr

/-- The object spread `{...existing, ...updates}` of `updateWatchlistItem`. -/
def applyCUpdates (it : CItem) (u : CUpdates) : CItem :=
  { it with
    status := u.status.getD it.status
    notes := match u.notes with | some n => some n | none => it.notes
    priority := u.priority.getD it.priority }

/-- Embedding of `addToWatchlist` in WatchlistContext.tsx, with write
failure made explicit: the reducer dispatch (ADD_ITEM) happens first, then
`localStorage.setItem` runs; when the write throws, execution stops with
the dispatch already applied. -/
def clientAdd (writeFails : Bool) (st : ClientState) (newItem : CItem) : ClientState :=
  let mem := newItem :: st.items
  if writeFails then { items := mem, store := st.store }
  else { items := mem, store := newItem :: st.store.filter (fun i => !(i.id == newItem.id)) }

/-- Embedding of `removeFromWatchlist` in WatchlistContext.tsx:
`localStorage.setItem` runs first and the dispatch (REMOVE_ITEM) only
afterwards, so a failed write leaves both copies untouched. -/
def clientRemove (writeFails : Bool) (st : ClientState) (itemId : String) : ClientState :=
  if writeFails then st
  else
    { items := st.items.filter (fun i => !(i.id == itemId))
      store := st.store.filter (fun i => !(i.id == itemId)) }

/-- Embedding of `updateWatchlistItem` in WatchlistContext.tsx: like remove,
the store write precedes the dispatch (UPDATE_ITEM).  When the item is
absent from memory the source spreads undefined; that corner is
approximated by an empty base item and is used by no claim. -/
def clientUpdate (writeFails : Bool) (st : ClientState) (itemId : String) (u : CUpdates) :
    ClientState :=
  let base : CItem :=
    match st.items.find? (fun i => i.id == itemId) with
    | some it => it
    | none => { id := itemId, status := "", notes := none, priority := 0 }
  let updated := applyCUpdates base u
  if writeFails then st
  else
    { items := st.items.map (fun i => if i.id == itemId then updated else i)
      store := st.store.map (fun i => if i.id == itemId then updated else i) }

/-! Concrete fixtures used by the witness and counterexample theorems. -/

/-- An empty server state. -/
def sEmpty : ServerState :=
  { movieDb := { movies := [], nextId := 1 }, watchlist := [], nextItemId := 1, reviews := [] }

/-- A movie row as `getOrCreateMovieByImdbId` would create it in 2025. -/
def mW : Movie := placeholderMovie 1 "tt0000001" 2025

/-- A movie table already holding `mW`. -/
def dbW : MovieDb := { movies := [mW], nextId := 2 }

/-- A valid add request for the IMDb id of the §8 example. -/
def bAdd : AddBody := { imdb_id := "tt1234567" }

/-- An add request with a malformed IMDb id. -/
def bBadAdd : AddBody := { imdb_id := "bad" }

/-- An update request with a priority outside 0..5. -/
def bBadUpdate : UpdateBody := { priority := some 6 }

/-- A valid update request that changes the status. -/
def bStatus : UpdateBody := { status := some "watched" }

/-- A valid update request that smuggles a new owner in the body. -/
def bOwner : UpdateBody := { user_id := some 2 }

/-- A server state with one watchlist row (id 1) owned by user 1. -/
def sOwned : ServerState :=
  { movieDb := dbW
    watchlist := [{ id := 1, user_id := 1, movie_id := 1, status := "want_to_watch",
                    notes := none, priority := 0 }]
    nextItemId := 2
    reviews := [] }

/-- A server state where user 1 has 25 watchlist rows, matching the §8
pagination example. -/
def s25 : ServerState :=
  { movieDb := dbW
    watchlist := (List.range 25).map (fun i =>
      { id := i + 1, user_id := 1, movie_id := 1, status := "want_to_watch",
        notes := none, priority := 0 })
    nextItemId := 26
    reviews := (List.range 25).map (fun i => { id := i + 1, user_id := 1, movie_id := 1 }) }

/-- The query of the §8 pagination example: page 2, limit 20. -/
def q22 : ListQuery := { page := some 2, limit := some 20 }

/-- A query with a limit far above every documented bound. -/
def qBig : ListQuery := { limit := some 1000 }

/-- A client watchlist item. -/
def cItem1 : CItem := { id := "tt0000001", status := "want_to_watch", notes := none, priority := 0 }

/-- A client state whose memory and store both hold `cItem1`. -/
def cState1 : ClientState := { items := [cItem1], store := [cItem1] }

/-! Helper lemmas. -/

/-- After a `getOrCreateMovieByImdbId` call, looking the same IMDb id up in
the resulting table finds exactly the returned movie. -/
theorem find?_after_getOrCreate (db : MovieDb) (imdbId : String) (today : Int) :
    ((getOrCreateMovieByImdbId db imdbId today).2).movies.find? (fun m => m.imdb_id == imdbId)
      = some (getOrCreateMovieByImdbId db imdbId today).1 := by
  unfold getOrCreateMovieByImdbId
  cases h : db.movies.find? (fun m => m.imdb_id == imdbId) with
  | some m => simp [h]
  | none => simp [h, List.find?_append, List.find?, placeholderMovie]

/-- For a positive divisor, `Int.fdiv` computes the rational floor of the
exact quotient. -/
theorem fdiv_eq_floor_ratCast (a : Int) {b : Int} (hb : 0 < b) :
    Int.fdiv a b = ⌊(a : ℚ) / (b : ℚ)⌋ := by
  obtain ⟨n, rfl⟩ := Int.eq_ofNat_of_zero_le hb.le
  rw [Int.fdiv_eq_ediv _ hb.le]
  exact_mod_cast (Rat.floor_intCast_div_natCast a n).symm

/-- The executable `jsCeil` computes the rational ceiling of `a / b` for
every nonzero divisor. -/
theorem jsCeil_eq_ceil (a : Int) {b : Int} (hb : b ≠ 0) :
    jsCeil a b = ⌈(a : ℚ) / (b : ℚ)⌉ := by
  rcases hb.lt_or_lt with hneg | hpos
  · have h1 : (0 : ℤ) < -b := by omega
    rw [jsCeil, if_neg (by omega), fdiv_eq_floor_ratCast a h1]
    have hc : ((-b : ℤ) : ℚ) = -(b : ℚ) := by push_cast; ring
    rw [hc, div_neg, Int.floor_neg, neg_neg]
  · rw [jsCeil, if_pos hpos.le, fdiv_eq_floor_ratCast (-a) hpos]
    have hc : ((-a : ℤ) : ℚ) = -(a : ℚ) := by push_cast; ring
    rw [hc, neg_div, Int.floor_neg, neg_neg]

/-- The pagination envelope satisfies the specified formulas whenever the
limit is nonzero. -/
theorem mkPagination_spec (count : Nat) (page : Int) {limit : Int} (hl : limit ≠ 0) :
    paginationSpec (mkPagination count page limit) := by
  have h := jsCeil_eq_ceil (count : Int) hl
  refine ⟨?_, ?_, rfl⟩
  · simpa [mkPagination, paginationSpec] using h
  · simp only [mkPagination, paginationSpec]
    rw [h]
    push_cast
    rfl

/-- A validated watchlist query never yields a zero limit. -/
theorem watchlistQuery_limit_ne_zero (q : ListQuery)
    (hq : validateWatchlistQuery q = true) : q.limit.getD 20 ≠ 0 := by
  cases hql : q.limit with
  | none => simp
  | some l =>
      simp only [validateWatchlistQuery, hql, Bool.and_eq_true, decide_eq_true_eq] at hq
      obtain ⟨⟨-, h2⟩, -⟩ := hq
      simpa using (by omega : l ≠ 0)

/-- A validated recent-reviews query never yields a zero limit. -/
theorem recentQuery_limit_ne_zero (q : ListQuery)
    (hq : validateRecentReviewsQuery q = true) : q.limit.getD 10 ≠ 0 := by
  cases hql : q.limit with
  | none => simp
  | some l =>
      simp only [validateRecentReviewsQuery, hql, Bool.and_eq_true, decide_eq_true_eq] at hq
      obtain ⟨-, h2⟩ := hq
      simpa using (by omega : l ≠ 0)

/-- The fallback `parseInt(x) || d` never yields 0 when the default is
nonzero. -/
theorem jsOrInt_ne_zero (o : Option Int) {d : Int} (hd : d ≠ 0) : jsOrInt o d ≠ 0 := by
  cases o with
  | none => simpa [jsOrInt] using hd
  | some v =>
      by_cases h : v = 0 <;> simp [jsOrInt, h, hd]

/-- A second `getOrCreateMovieByImdbId` call with the same IMDb id returns
the record and table of the first call unchanged. -/
theorem getOrCreate_stable (db : MovieDb) (imdbId : String) (t1 t2 : Int) :
    getOrCreateMovieByImdbId (getOrCreateMovieByImdbId db imdbId t1).2 imdbId t2
      = ((getOrCreateMovieByImdbId db imdbId t1).1,
         (getOrCreateMovieByImdbId db imdbId t1).2) := by
  have h := find?_after_getOrCreate db imdbId t1
  set p := getOrCreateMovieByImdbId db imdbId t1 with hp
  unfold getOrCreateMovieByImdbId
  rw [h]

/-- The 409 branch of POST /add: when a (user, movie) row already exists,
the handler answers 409 and only the movie-service side effect remains. -/
theorem addHandler_conflict_branch (s : ServerState) (userId : Nat) (b : AddBody) (t : Int)
    (it : WItem) (hv : validateAddBody b = true)
    (hfind : s.watchlist.find? (fun x => x.user_id == userId
        && x.movie_id == (getOrCreateMovieByImdbId s.movieDb b.imdb_id t).1.id) = some it) :
    addHandler s userId b t
      = (409, { s with movieDb := (getOrCreateMovieByImdbId s.movieDb b.imdb_id t).2 }) := by
  simp [addHandler, hv, hfind]

/-- The 201 branch of POST /add: when no (user, movie) row exists, the
handler inserts exactly one row for that pair. -/
theorem addHandler_created_branch (s : ServerState) (userId : Nat) (b : AddBody) (t : Int)
    (hv : validateAddBody b = true)
    (hfind : s.watchlist.find? (fun x => x.user_id == userId
        && x.movie_id == (getOrCreateMovieByImdbId s.movieDb b.imdb_id t).1.id) = none) :
    addHandler s userId b t
      = (201, { s with
          movieDb := (getOrCreateMovieByImdbId s.movieDb b.imdb_id t).2
          watchlist := s.watchlist
            ++ [{ id := s.nextItemId
                  user_id := userId
                  movie_id := (getOrCreateMovieByImdbId s.movieDb b.imdb_id t).1.id
                  status := b.status.getD "want_to_watch"
                  notes := b.notes
                  priority := b.priority.getD 0 }]
          nextItemId := s.nextItemId + 1 }) := by
  simp [addHandler, hv, hfind]

/-- C3: movie lookup is idempotent.  When a movie with the requested
external id exists, `getOrCreateMovieByImdbId` returns it with the table
unchanged; and a second call with the same external id returns the same
record and the same table as the first call, so no duplicate row is ever
created. -/
theorem getOrCreate_idempotent (db : MovieDb) (imdbId : String) (t1 t2 : Int) :
    (∀ m, db.movies.find? (fun mv => mv.imdb_id == imdbId) = some m →
        getOrCreateMovieByImdbId db imdbId t1 = (m, db))
      ∧ getOrCreateMovieByImdbId (getOrCreateMovieByImdbId db imdbId t1).2 imdbId t2
        = ((getOrCreateMovieByImdbId db imdbId t1).1,
           (getOrCreateMovieByImdbId db imdbId t1).2) := by
  constructor
  · intro m hm
    unfold getOrCreateMovieByImdbId
    rw [hm]
  · exact getOrCreate_stable db imdbId t1 t2

/-- Witness for C3 at a concrete table already holding the movie. -/
theorem getOrCreate_idempotent_witness :
    getOrCreateMovieByImdbId dbW "tt0000001" 2025 = (mW, dbW)
      ∧ getOrCreateMovieByImdbId (getOrCreateMovieByImdbId dbW "tt0000001" 2025).2
          "tt0000001" 2026
        = ((getOrCreateMovieByImdbId dbW "tt0000001" 2025).1,
           (getOrCreateMovieByImdbId dbW "tt0000001" 2025).2) :=
  ⟨(getOrCreate_idempotent dbW "tt0000001" 2025 2026).1 mW (by decide),
   (getOrCreate_idempotent dbW "tt0000001" 2025 2026).2⟩

/-- C4: enrichment is a field-level merge.  For an existing movie,
`updateMovieFromOmdb` succeeds, never touches the id, external id or the
rating aggregates, and preserves the existing column value for every field
absent from the supplied metadata. -/
theorem enrich_preserves_absent_fields (db : MovieDb) (imdbId : String) (d : OmdbData)
    (m : Movie) (hm : db.movies.find? (fun mv => mv.imdb_id == imdbId) = some m) :
    ∃ m2 db2, updateMovieFromOmdb db imdbId d = some (m2, db2)
      ∧ m2.id = m.id ∧ m2.imdb_id = m.imdb_id
      ∧ m2.average_rating = m.average_rating ∧ m2.total_reviews = m.total_reviews
      ∧ (d.Title = none → m2.title = m.title)
      ∧ (d.Year = none → m2.year = m.year)
      ∧ (d.Rated = none → m2.rated = m.rated)
      ∧ (d.Released = none → m2.released = m.released)
      ∧ (d.Runtime = none → m2.runtime = m.runtime)
      ∧ (d.Genre = none → m2.genre = m.genre)
      ∧ (d.Director = none → m2.director = m.director)
      ∧ (d.Writer = none → m2.writer = m.writer)
      ∧ (d.Actors = none → m2.actors = m.actors)
      ∧ (d.Plot = none → m2.plot = m.plot)
      ∧ (d.Language = none → m2.language = m.language)
      ∧ (d.Country = none → m2.country = m.country)
      ∧ (d.Awards = none → m2.awards = m.awards)
      ∧ (d.Poster = none → m2.poster = m.poster)
      ∧ (d.imdbRating = none → m2.imdb_rating = m.imdb_rating)
      ∧ (d.imdbVotes = none → m2.imdb_votes = m.imdb_votes)
      ∧ (d.«Type» = none → m2.type = m.type)
      ∧ (d.DVD = none → m2.dvd = m.dvd)
      ∧ (d.BoxOffice = none → m2.box_office = m.box_office)
      ∧ (d.Production = none → m2.production = m.production)
      ∧ (d.Website = none → m2.website = m.website) := by
  unfold updateMovieFromOmdb
  rw [hm]
  refine ⟨applyOmdb m d, _, rfl, rfl, rfl, rfl, rfl, ?_, ?_, ?_, ?_, ?_, ?_, ?_, ?_, ?_,
    ?_, ?_, ?_, ?_, ?_, ?_, ?_, ?_, ?_, ?_, ?_, ?_⟩
  all_goals intro h
  all_goals simp [applyOmdb, jsOrStr, jsOrInt, jsOrRat, jsOrOpt, h]

/-- Witness for C4: enriching with an all-absent metadata object at a
concrete table. -/
theorem enrich_preserves_absent_fields_witness :
    ∃ m2 db2, updateMovieFromOmdb dbW "tt0000001" {} = some (m2, db2)
      ∧ m2.id = mW.id ∧ m2.imdb_id = mW.imdb_id
      ∧ m2.average_rating = mW.average_rating ∧ m2.total_reviews = mW.total_reviews
      ∧ (({} : OmdbData).Title = none → m2.title = mW.title)
      ∧ (({} : OmdbData).Year = none → m2.year = mW.year)
      ∧ (({} : OmdbData).Rated = none → m2.rated = mW.rated)
      ∧ (({} : OmdbData).Released = none → m2.released = mW.released)
      ∧ (({} : OmdbData).Runtime = none → m2.runtime = mW.runtime)
      ∧ (({} : OmdbData).Genre = none → m2.genre = mW.genre)
      ∧ (({} : OmdbData).Director = none → m2.director = mW.director)
      ∧ (({} : OmdbData).Writer = none → m2.writer = mW.writer)
      ∧ (({} : OmdbData).Actors = none → m2.actors = mW.actors)
      ∧ (({} : OmdbData).Plot = none → m2.plot = mW.plot)
      ∧ (({} : OmdbData).Language = none → m2.language = mW.language)
      ∧ (({} : OmdbData).Country = none → m2.country = mW.country)
      ∧ (({} : OmdbData).Awards = none → m2.awards = mW.awards)
      ∧ (({} : OmdbData).Poster = none → m2.poster = mW.poster)
      ∧ (({} : OmdbData).imdbRating = none → m2.imdb_rating = mW.imdb_rating)
      ∧ (({} : OmdbData).imdbVotes = none → m2.imdb_votes = mW.imdb_votes)
      ∧ (({} : OmdbData).«Type» = none → m2.type = mW.type)
      ∧ (({} : OmdbData).DVD = none → m2.dvd = mW.dvd)
      ∧ (({} : OmdbData).BoxOffice = none → m2.box_office = mW.box_office)
      ∧ (({} : OmdbData).Production = none → m2.production = mW.production)
      ∧ (({} : OmdbData).Website = none → m2.website = mW.website) :=
  enrich_preserves_absent_fields dbW "tt0000001" {} mW (by decide)

/-- C9: the update handler passes the whole request body to the ORM update,
so an owning user can also change undocumented columns: at a concrete state
the owner of item 1 issues a valid PUT whose body carries `user_id := 2`,
the request succeeds, and the stored user_id changes from 1 to 2. -/
theorem updateHandler_changes_user_id :
    (updateHandler sOwned 1 1 bOwner).1 = 200
      ∧ (updateHandler sOwned 1 1 bOwner).2.watchlist.map (fun it => it.user_id) = [2]
      ∧ sOwned.watchlist.map (fun it => it.user_id) = [1] := by
  decide

/-- C10: the read endpoints GET /check/:imdbId and GET /movies/:imdbId are
not side-effect free: when no movie row carries the requested IMDb id, each
of them appends a placeholder Movie row to the table. -/
theorem read_endpoints_create_placeholder (s : ServerState) (userId : Nat) (imdbId : String)
    (q : ListQuery) (t : Int)
    (h : s.movieDb.movies.find? (fun m => m.imdb_id == imdbId) = none) :
    (checkHandler s userId imdbId t).2.2.movieDb.movies
        = s.movieDb.movies ++ [placeholderMovie s.movieDb.nextId imdbId t]
      ∧ (movieReviewsHandler s imdbId q t).2.2.movieDb.movies
        = s.movieDb.movies ++ [placeholderMovie s.movieDb.nextId imdbId t] := by
  constructor <;> simp [checkHandler, movieReviewsHandler, getOrCreateMovieByImdbId, h]

/-- Witness for C10 at the empty state. -/
theorem read_endpoints_create_placeholder_witness :
    (checkHandler sEmpty 1 "tt0000001" 2025).2.2.movieDb.movies
        = sEmpty.movieDb.movies ++ [placeholderMovie sEmpty.movieDb.nextId "tt0000001" 2025]
      ∧ (movieReviewsHandler sEmpty "tt0000001" {} 2025).2.2.movieDb.movies
        = sEmpty.movieDb.movies ++ [placeholderMovie sEmpty.movieDb.nextId "tt0000001" 2025] :=
  read_endpoints_create_placeholder sEmpty 1 "tt0000001" {} 2025 (by decide)

/-- C1: adding the same movie twice yields Conflict.  For every state and
valid add request, when the first POST /add answers 201, repeating the same
request against the resulting state answers 409 and leaves the watchlist
table unchanged, so no second row for the (user, movie) pair is created. -/
theorem addTwice_conflict (s : ServerState) (userId : Nat) (b : AddBody) (t1 t2 : Int)
    (hv : validateAddBody b = true)
    (h1 : (addHandler s userId b t1).1 = 201) :
    (addHandler (addHandler s userId b t1).2 userId b t2).1 = 409
      ∧ (addHandler (addHandler s userId b t1).2 userId b t2).2.watchlist
        = (addHandler s userId b t1).2.watchlist := by
  cases hfind : s.watchlist.find? (fun x => x.user_id == userId
      && x.movie_id == (getOrCreateMovieByImdbId s.movieDb b.imdb_id t1).1.id) with
  | some it =>
      rw [addHandler_conflict_branch s userId b t1 it hv hfind] at h1
      simp at h1
  | none =>
      rw [addHandler_created_branch s userId b t1 hv hfind]
      have hstable := getOrCreate_stable s.movieDb b.imdb_id t1 t2
      simp only [addHandler, hv, if_true]
      rw [hstable]
      simp only [List.find?_append, hfind, List.find?, beq_self_eq_true, Bool.and_self,
        Option.none_or]
      simp

/-- Witness for C1: the §8 example run from the empty state. -/
theorem addTwice_conflict_witness :
    validateAddBody bAdd = true
      ∧ (addHandler sEmpty 7 bAdd 2025).1 = 201
      ∧ (addHandler (addHandler sEmpty 7 bAdd 2025).2 7 bAdd 2026).1 = 409
      ∧ (addHandler (addHandler sEmpty 7 bAdd 2025).2 7 bAdd 2026).2.watchlist
        = (addHandler sEmpty 7 bAdd 2025).2.watchlist :=
  ⟨by decide, by decide,
   (addTwice_conflict sEmpty 7 bAdd 2025 2026 (by decide) (by decide)).1,
   (addTwice_conflict sEmpty 7 bAdd 2025 2026 (by decide) (by decide)).2⟩

/-- C5: ownership of watchlist mutations.  For a valid update body: a
missing item yields 404 from both PUT and DELETE with the state unchanged;
an item owned by another user yields 403 from both with the state
unchanged; and whenever either handler changes the state at all, the
referenced item existed and was owned by the requester. -/
theorem watchlist_mutation_ownership (s : ServerState) (userId itemId : Nat) (b : UpdateBody)
    (hv : validateUpdateBody b = true) :
    (s.watchlist.find? (fun x => x.id == itemId) = none →
        updateHandler s userId itemId b = (404, s)
          ∧ deleteHandler s userId itemId = (404, s))
      ∧ (∀ it, s.watchlist.find? (fun x => x.id == itemId) = some it →
          it.user_id ≠ userId →
          updateHandler s userId itemId b = (403, s)
            ∧ deleteHandler s userId itemId = (403, s))
      ∧ ((updateHandler s userId itemId b).2 ≠ s →
          ∃ it, s.watchlist.find? (fun x => x.id == itemId) = some it ∧ it.user_id = userId)
      ∧ ((deleteHandler s userId itemId).2 ≠ s →
          ∃ it, s.watchlist.find? (fun x => x.id == itemId) = some it ∧ it.user_id = userId) := by
  refine ⟨?_, ?_, ?_, ?_⟩
  · intro h
    constructor <;> simp [updateHandler, deleteHandler, hv, h]
  · intro it hit hne
    constructor <;> simp [updateHandler, deleteHandler, hv, hit, hne]
  · intro hch
    cases hfind : s.watchlist.find? (fun x => x.id == itemId) with
    | none => exact absurd (by simp [updateHandler, hv, hfind]) hch
    | some it =>
        by_cases ho : it.user_id = userId
        · exact ⟨it, rfl, ho⟩
        · exact absurd (by simp [updateHandler, hv, hfind, ho]) hch
  · intro hch
    cases hfind : s.watchlist.find? (fun x => x.id == itemId) with
    | none => exact absurd (by simp [deleteHandler, hfind]) hch
    | some it =>
        by_cases ho : it.user_id = userId
        · exact ⟨it, rfl, ho⟩
        · exact absurd (by simp [deleteHandler, hfind, ho]) hch

/-- Witness for C5: a missing item at the empty state, a non-owner at a
one-item state, and an owning update and delete that do mutate it. -/
theorem watchlist_mutation_ownership_witness :
    (updateHandler sEmpty 2 1 bStatus = (404, sEmpty)
        ∧ deleteHandler sEmpty 2 1 = (404, sEmpty))
      ∧ (updateHandler sOwned 2 1 bStatus = (403, sOwned)
        ∧ deleteHandler sOwned 2 1 = (403, sOwned))
      ∧ (∃ it, sOwned.watchlist.find? (fun x => x.id == 1) = some it ∧ it.user_id = 1)
      ∧ (∃ it, sOwned.watchlist.find? (fun x => x.id == 1) = some it ∧ it.user_id = 1) :=
  ⟨(watchlist_mutation_ownership sEmpty 2 1 bStatus (by decide)).1 (by decide),
   (watchlist_mutation_ownership sOwned 2 1 bStatus (by decide)).2.1
     { id := 1, user_id := 1, movie_id := 1, status := "want_to_watch",
       notes := none, priority := 0 } (by decide) (by decide),
   (watchlist_mutation_ownership sOwned 1 1 bStatus (by decide)).2.2.1 (by decide),
   (watchlist_mutation_ownership sOwned 1 1 bStatus (by decide)).2.2.2 (by decide)⟩

/-- C6: validation rejects before any mutation.  A POST /add or PUT body
that fails its validator chain yields 400 with the server state returned
unchanged: no movie row is created and no watchlist row is created or
modified. -/
theorem validation_rejects_before_mutation (s : ServerState) (userId itemId : Nat)
    (b : AddBody) (ub : UpdateBody) (t : Int)
    (ha : validateAddBody b = false) (hu : validateUpdateBody ub = false) :
    addHandler s userId b t = (400, s) ∧ updateHandler s userId itemId ub = (400, s) := by
  constructor <;> simp [addHandler, updateHandler, ha, hu]

/-- Witness for C6: a malformed IMDb id and an out-of-range priority. -/
theorem validation_rejects_before_mutation_witness :
    addHandler sEmpty 1 bBadAdd 2025 = (400, sEmpty)
      ∧ updateHandler sEmpty 1 1 bBadUpdate = (400, sEmpty) :=
  validation_rejects_before_mutation sEmpty 1 1 bBadAdd bBadUpdate 2025 (by decide) (by decide)

/-- C2: every pagination envelope the three listing endpoints return
satisfies `total_pages = ceil(total / limit)`,
`has_next = page < ceil(total / limit)` and `has_prev = page > 1`. -/
theorem pagination_metadata_spec :
    (∀ (s : ServerState) (userId : Nat) (q : ListQuery) (st : Nat) (pg : Pagination),
        getWatchlistHandler s userId q = (st, some pg) → paginationSpec pg)
      ∧ (∀ (s : ServerState) (q : ListQuery) (st : Nat) (pg : Pagination),
          recentReviewsHandler s q = (st, some pg) → paginationSpec pg)
      ∧ (∀ (s : ServerState) (imdbId : String) (q : ListQuery) (t : Int) (st : Nat)
          (pg : Pagination) (s2 : ServerState),
          movieReviewsHandler s imdbId q t = (st, some pg, s2) → paginationSpec pg) := by
  refine ⟨?_, ?_, ?_⟩
  · intro s userId q st pg h
    by_cases hq : validateWatchlistQuery q = true
    · simp only [getWatchlistHandler, hq, if_true, Prod.mk.injEq] at h
      obtain ⟨-, h2⟩ := h
      obtain rfl := (Option.some.inj h2).symm
      exact mkPagination_spec _ _ (watchlistQuery_limit_ne_zero q hq)
    · simp [getWatchlistHandler, hq] at h
  · intro s q st pg h
    by_cases hq : validateRecentReviewsQuery q = true
    · simp only [recentReviewsHandler, hq, if_true, Prod.mk.injEq] at h
      obtain ⟨-, h2⟩ := h
      obtain rfl := (Option.some.inj h2).symm
      exact mkPagination_spec _ _ (recentQuery_limit_ne_zero q hq)
    · simp [recentReviewsHandler, hq] at h
  · intro s imdbId q t st pg s2 h
    simp only [movieReviewsHandler, Prod.mk.injEq] at h
    obtain ⟨-, h2, -⟩ := h
    obtain rfl := (Option.some.inj h2).symm
    exact mkPagination_spec _ _ (jsOrInt_ne_zero q.limit (by omega))

/-- Witness for C2: the §8 example (25 items, page 2, limit 20) against the
watchlist query, and concrete runs of both review listings. -/
theorem pagination_metadata_spec_witness :
    paginationSpec (mkPagination 25 2 20)
      ∧ paginationSpec (mkPagination 25 2 20)
      ∧ paginationSpec (mkPagination 25 1 10) :=
  ⟨pagination_metadata_spec.1 s25 1 q22 200 (mkPagination 25 2 20) (by decide),
   pagination_metadata_spec.2.1 s25 q22 200 (mkPagination 25 2 20) (by decide),
   pagination_metadata_spec.2.2 s25 "tt0000001" {} 2025 200 (mkPagination 25 1 10) s25
     (by decide)⟩

/-- C7 counterexample: the claim that every client mutating action updates
the in-memory reducer state before the store write is confirmed fails for
`removeFromWatchlist`: at a concrete one-item state, when the store write
fails the in-memory items still differ from the successful-write outcome,
because the dispatch only ever runs after `localStorage.setItem`. -/
theorem client_remove_not_optimistic :
    ¬ ((clientRemove true cState1 "tt0000001").items
        = (clientRemove false cState1 "tt0000001").items) := by
  decide

/-- C7 amended: only `addToWatchlist` is optimistic: it updates the
in-memory items before the store write, a failed write is not rolled back
and leaves the store behind the memory.  `removeFromWatchlist` and
`updateWatchlistItem` write the store first, so a failed write returns the
whole client state unchanged; no action has a rollback path. -/
theorem client_mutation_ordering :
    (∀ (st : ClientState) (it : CItem),
        (clientAdd true st it).items = (clientAdd false st it).items
          ∧ (clientAdd true st it).items = it :: st.items
          ∧ (clientAdd true st it).store = st.store)
      ∧ (∀ (st : ClientState) (itemId : String), clientRemove true st itemId = st)
      ∧ (∀ (st : ClientState) (itemId : String) (u : CUpdates),
          clientUpdate true st itemId u = st) :=
  ⟨fun _ _ => ⟨rfl, rfl, rfl⟩, fun _ _ => rfl, fun _ _ _ => rfl⟩

/-- C8 counterexample: the per-movie review listing has no limit bound: a
request with limit 1000 is served with status 200, not rejected as a
validation error. -/
theorem movieReviews_limit_unbounded :
    (movieReviewsHandler sEmpty "tt0000001" qBig 2025).1 = 200
      ∧ (movieReviewsHandler sEmpty "tt0000001" qBig 2025).1 ≠ 400 := by
  decide

/-- C8 amended: the limit bound is enforced for the watchlist query (100)
and the recent-reviews listing (50), which answer 400 above it, while the
per-movie review listing validates nothing and serves any limit value. -/
theorem limit_bounds_per_endpoint (s : ServerState) (userId : Nat) (q : ListQuery) (l : Int)
    (hq : q.limit = some l) :
    (100 < l → (getWatchlistHandler s userId q).1 = 400)
      ∧ (50 < l → (recentReviewsHandler s q).1 = 400)
      ∧ (∀ (imdbId : String) (t : Int), (movieReviewsHandler s imdbId q t).1 = 200) := by
  refine ⟨?_, ?_, fun imdbId t => rfl⟩
  · intro hl
    have hv : ¬(validateWatchlistQuery q = true) := by
      simp only [validateWatchlistQuery, hq, Bool.and_eq_true, decide_eq_true_eq]
      rintro ⟨⟨-, h2⟩, -⟩
      omega
    simp [getWatchlistHandler, hv]
  · intro hl
    have hv : ¬(validateRecentReviewsQuery q = true) := by
      simp only [validateRecentReviewsQuery, hq, Bool.and_eq_true, decide_eq_true_eq]
      rintro ⟨-, h2⟩
      omega
    simp [recentReviewsHandler, hv]

/-- Witness for the amended C8 at limit 1000. -/
theorem limit_bounds_per_endpoint_witness :
    (getWatchlistHandler sEmpty 1 qBig).1 = 400
      ∧ (recentReviewsHandler sEmpty qBig).1 = 400
      ∧ (movieReviewsHandler sEmpty "tt0000002" qBig 2025).1 = 200 :=
  ⟨(limit_bounds_per_endpoint sEmpty 1 qBig 1000 rfl).1 (by decide),
   (limit_bounds_per_endpoint sEmpty 1 qBig 1000 rfl).2.1 (by decide),
   (limit_bounds_per_endpoint sEmpty 1 qBig 1000 rfl).2.2 "tt0000002" 2025⟩

end MovieApp
